import Mathlib

/-
  Verification development for the meal-tracker web application.

  The definitions below are a shallow embedding of the application code:
  - src/lib/db.idb.ts        (local IndexedDB adapter)
  - src/lib/db.firestore.ts  (cloud Firestore adapter)
  - src/lib/db.ts            (backend routing layer)
  - src/lib/merge.ts         (one-time local to cloud migration)
  - src/lib/ai-parser.ts     (AI intent parser)
  - src/pages/MealInput.tsx  (recipe-to-meal scaling)

  JavaScript numbers that the code treats as integers are modelled as Int,
  fractional quantities (recipe totals, weights in kg) as Rat.  Asynchronous
  storage and network effects are modelled by explicit state passing and by
  oracle parameters describing the outcome of the external call.
-/

namespace MealTracker

/-- Model of the JavaScript values that can appear in a field of the JSON
object returned by the AI completion service: undefined (absent property),
null, booleans, numbers and strings.  The service is instructed to return
integer nutritional values, so numbers are modelled as Int. -/
inductive JValue
  | absent
  | jnull
  | jbool (b : Bool)
  | jnum (n : Int)
  | jstr (s : String)
deriving DecidableEq

/-- JavaScript truthiness of a value: undefined, null, false, 0 and the
empty string are falsy, everything else is truthy. -/
def jsTruthy : JValue → Bool
  | .absent => false
  | .jnull => false
  | .jbool b => b
  | .jnum n => n != 0
  | .jstr s => s != ""

/-- JavaScript ToString conversion on the modelled values, as performed
implicitly by parseInt and parseFloat on a non-string argument. -/
def jsToString : JValue → String
  | .absent => "undefined"
  | .jnull => "null"
  | .jbool true => "true"
  | .jbool false => "false"
  | .jnum n => toString n
  | .jstr s => s

/-- Numeric value of a decimal digit character, if it is one. -/
def decDigit? (c : Char) : Option Nat :=
  if c.isDigit then some (c.toNat - 48) else none

/-- Numeric value of a hexadecimal digit character, if it is one. -/
def hexDigit? (c : Char) : Option Nat :=
  if c.isDigit then some (c.toNat - 48)
  else if 'a' ≤ c ∧ c ≤ 'f' then some (c.toNat - 87)
  else if 'A' ≤ c ∧ c ≤ 'F' then some (c.toNat - 55)
  else none

/-- Value of the longest prefix of digits in the given base; none when the
prefix is empty (which parseInt reports as NaN). -/
def parseRadix (base : Nat) (digit? : Char → Option Nat) (cs : List Char) : Option Nat :=
  let ds := cs.takeWhile (fun c => (digit? c).isSome)
  if ds.isEmpty then none
  else some (ds.foldl (fun acc c => acc * base + (digit? c).getD 0) 0)

/-- Unsigned part of JavaScript parseInt with no explicit radix: a 0x or 0X
prefix selects hexadecimal, otherwise decimal. -/
def parseIntNoSign (cs : List Char) : Option Nat :=
  match cs with
  | '0' :: 'x' :: rest => parseRadix 16 hexDigit? rest
  | '0' :: 'X' :: rest => parseRadix 16 hexDigit? rest
  | _ => parseRadix 10 decDigit? cs

/-- JavaScript parseInt (radix argument omitted): skip leading whitespace,
optional sign, then the longest digit prefix; none models NaN. -/
def parseIntJS (s : String) : Option Int :=
  let cs := s.toList.dropWhile Char.isWhitespace
  match cs with
  | '-' :: rest => (parseIntNoSign rest).map (fun n => -(n : Int))
  | '+' :: rest => (parseIntNoSign rest).map (fun n => (n : Int))
  | _ => (parseIntNoSign cs).map (fun n => (n : Int))

/-- Value of a list of decimal digit characters. -/
def decDigitsVal (cs : List Char) : Nat :=
  cs.foldl (fun acc c => acc * 10 + ((decDigit? c).getD 0)) 0

/-- Unsigned part of JavaScript parseFloat restricted to plain decimal
literals (digits, optional fraction); the exponent form and Infinity are not
exercised by this code and are outside the model. -/
def parseFloatMag (cs : List Char) : Option Rat :=
  let intPart := cs.takeWhile Char.isDigit
  let rest := cs.drop intPart.length
  match rest with
  | '.' :: rest2 =>
      let fracPart := rest2.takeWhile Char.isDigit
      if intPart.isEmpty ∧ fracPart.isEmpty then none
      else some ((decDigitsVal intPart : Rat) +
        (decDigitsVal fracPart : Rat) / ((10 : Rat) ^ fracPart.length))
  | _ => if intPart.isEmpty then none else some (decDigitsVal intPart : Rat)

/-- JavaScript parseFloat: skip leading whitespace, optional sign, longest
decimal prefix; none models NaN. -/
def parseFloatJS (s : String) : Option Rat :=
  let cs := s.toList.dropWhile Char.isWhitespace
  match cs with
  | '-' :: rest => (parseFloatMag rest).map (fun q => -q)
  | '+' :: rest => (parseFloatMag rest).map (fun q => q)
  | _ => (parseFloatMag cs).map (fun q => q)

/-- The idiom parseInt(v) || 0 used by the parser on every numeric macro
field: coerce the field value to an integer, 0 when coercion fails (NaN)
or yields 0. -/
def jsParseIntOr0 (v : JValue) : Int :=
  match parseIntJS (jsToString v) with
  | some n => if n = 0 then 0 else n
  | none => 0

/-- The idiom parseFloat(v) || 0 used on the weight field. -/
def jsParseFloatOr0 (v : JValue) : Rat :=
  match parseFloatJS (jsToString v) with
  | some q => if q = 0 then 0 else q
  | none => 0

/-- Property access on the object produced by JSON.parse: the last
occurrence of a duplicated key wins, an absent key reads as undefined. -/
def jsonGet (fields : List (String × JValue)) (k : String) : JValue :=
  (fields.foldl (fun acc e => if e.1 = k then some e.2 else acc) none).getD .absent

/-! ## Data model (interfaces in src/lib/db.idb.ts)

Each entity carries an optional numeric id, absent before the record is
first persisted, exactly like the optional id field of the TypeScript
interfaces.  The adapters pass around Omit types by ignoring the id field
and overwriting it at insertion. -/

/-- One parsed macro breakdown entry of a meal (the Meal interface's parsed
list element, also the ParsedMeal shape of the AI parser and the mealData
object built by recipe logging).  The food field is kept as a raw JValue
because the parser assigns whatever truthy value the service returned. -/
structure ParsedEntry where
  food : JValue
  calories : Int
  protein : Int
  fat : Int
  carbs : Int
  fiber : Int
deriving DecidableEq

/-- The Meal interface. -/
structure Meal where
  id : Option Int
  date : String
  timestamp : Int
  content : String
  parsed : List ParsedEntry
  totalCalories : Int
deriving DecidableEq

/-- The Favourite interface. -/
structure Favourite where
  id : Option Int
  name : String
  content : String
  parsed : List ParsedEntry
  totalCalories : Int
  createdAt : Int
deriving DecidableEq

/-- The RecipeIngredient interface. -/
structure RecipeIngredient where
  name : String
  weight : Rat
  calories : Rat
  protein : Rat
  fat : Rat
  carbs : Rat
  fiber : Rat
deriving DecidableEq

/-- The Recipe interface.  Aggregate totals are Rat since they feed the
weight-ratio scaling division. -/
structure Recipe where
  id : Option Int
  name : String
  ingredients : List RecipeIngredient
  totalWeight : Rat
  totalCalories : Rat
  totalProtein : Rat
  totalFat : Rat
  totalCarbs : Rat
  totalFiber : Rat
  createdAt : Int
deriving DecidableEq

/-- The WeightEntry interface. -/
structure WeightEntry where
  id : Option Int
  date : String
  weight : Rat
  timestamp : Int
deriving DecidableEq

/-- The twelve keys of the UserSettings interface. -/
inductive SKey
  | apiKey
  | dailyCalories
  | dailyProtein
  | dailyCarbs
  | dailyFiber
  | unitBowlLiquid
  | unitBowlSolid
  | unitTbsp
  | unitTsp
  | profileAge
  | profileWeight
  | profileHeight
deriving DecidableEq

/-- The keys of UserSettings in declaration order, as Object.keys returns
them on a record built by spreading DEFAULT_SETTINGS first. -/
def allSKeys : List SKey :=
  [.apiKey, .dailyCalories, .dailyProtein, .dailyCarbs, .dailyFiber,
   .unitBowlLiquid, .unitBowlSolid, .unitTbsp, .unitTsp,
   .profileAge, .profileWeight, .profileHeight]

/-- DEFAULT_SETTINGS, viewed as the default JValue of each settings key. -/
def defaultSetting : SKey → JValue
  | .apiKey => .jstr ""
  | .dailyCalories => .jnum 2000
  | .dailyProtein => .jnum 120
  | .dailyCarbs => .jnum 250
  | .dailyFiber => .jnum 30
  | .unitBowlLiquid => .jnum 250
  | .unitBowlSolid => .jnum 150
  | .unitTbsp => .jnum 15
  | .unitTsp => .jnum 5
  | .profileAge => .jnum 0
  | .profileWeight => .jnum 0
  | .profileHeight => .jnum 0

/-- The UserSettings record as consumed by the AI parser.  Only the apiKey
and the numeric goals and portion sizes appear in prompts; the parser's
control flow depends only on apiKey. -/
structure UserSettings where
  apiKey : String
  dailyCalories : Rat
  dailyProtein : Rat
  dailyCarbs : Rat
  dailyFiber : Rat
  unitBowlLiquid : Rat
  unitBowlSolid : Rat
  unitTbsp : Rat
  unitTsp : Rat
  profileAge : Rat
  profileWeight : Rat
  profileHeight : Rat
deriving DecidableEq

/-- DEFAULT_SETTINGS as a UserSettings record. -/
def DEFAULT_SETTINGS : UserSettings :=
  { apiKey := ""
    dailyCalories := 2000
    dailyProtein := 120
    dailyCarbs := 250
    dailyFiber := 30
    unitBowlLiquid := 250
    unitBowlSolid := 150
    unitTbsp := 15
    unitTsp := 5
    profileAge := 0
    profileWeight := 0
    profileHeight := 0 }

/-! ## Local store adapter (src/lib/db.idb.ts)

An IndexedDB object store with an in-line key is a set of records keyed by
that field.  The settings store (keyPath 'key') is therefore modelled as a
partial map from SKey to the stored value; the auto-increment entity stores
are modelled as a list of rows plus the next auto-increment key. -/

/-- Error raised by IndexedDB when an insert violates a unique index. -/
inductive DBError
  | constraintError
deriving DecidableEq

/-- idb.addFavourite: db.add on the favourites store, whose by-name index
is declared unique in initDB, so the insert fails with a ConstraintError
when a row with the same name already exists; otherwise the row is stored
with the next auto-increment key injected at the id keyPath, and that key
is returned. -/
def idbAddFavourite (rows : List Favourite) (nextId : Int) (fav : Favourite) :
    Except DBError (List Favourite × Int × Int) :=
  if rows.any (fun r => r.name = fav.name) then .error .constraintError
  else .ok (rows ++ [{ fav with id := some nextId }], nextId + 1, nextId)

/-- idb.addRecipe: db.add on the recipes store, whose by-name index is also
declared unique in initDB. -/
def idbAddRecipe (rows : List Recipe) (nextId : Int) (recipe : Recipe) :
    Except DBError (List Recipe × Int) :=
  if rows.any (fun r => r.name = recipe.name) then .error .constraintError
  else .ok (rows ++ [{ recipe with id := some nextId }], nextId + 1)

/-- The local settings object store: a partial map from key to saved value
(keyPath 'key', at most one row per key). -/
def IdbSettings : Type := SKey → Option JValue

/-- idb.saveSetting: db.put of the row (key, value), replacing any existing
row with that key. -/
def idbSaveSetting (m : IdbSettings) (k : SKey) (v : JValue) : IdbSettings :=
  fun q => if q = k then some v else m q

/-- idb.getSettings, read at one key: the stored rows are spread over a copy
of DEFAULT_SETTINGS, so a key reads as its saved value when a row exists and
as its default otherwise. -/
def idbGetSetting (m : IdbSettings) (k : SKey) : JValue :=
  (m k).getD (defaultSetting k)

/-! ## Cloud store adapter (src/lib/db.firestore.ts)

A Firestore collection is modelled as an association list from document
path to document data, with setDoc replacing the document at a path or
creating it.  genId in the source is Date.now() plus a random offset; the
model threads an explicit fresh-key supply instead, which preserves the
only property the code relies on: one numeric key is generated per add and
used both as the document path and as the stored id field. -/

/-- setDoc (without merge): create or replace the document at a path. -/
def setDocL {α : Type} (col : List (String × α)) (p : String) (v : α) :
    List (String × α) :=
  match col with
  | [] => [(p, v)]
  | e :: rest => if e.1 = p then (p, v) :: rest else e :: setDocL rest p v

/-- getDoc: the document stored at a path, if any. -/
def lookupL {α : Type} (col : List (String × α)) (p : String) : Option α :=
  match col with
  | [] => none
  | e :: rest => if e.1 = p then some e.2 else lookupL rest p

/-- The String(x) conversion used to build a document path from a record id
(String(undefined) is the string undefined). -/
def docPath : Option Int → String
  | some n => toString n
  | none => "undefined"

/-- genId modelled against a fresh-key supply: returns the generated key and
the advanced supply. -/
def genId (g : Nat) : Int × Nat := ((g : Int), g + 1)

/-- The per-user cloud namespace: four entity collections plus the single
merged settings document at settings/data (absent until first written). -/
structure CloudUser where
  meals : List (String × Meal)
  favourites : List (String × Favourite)
  weights : List (String × WeightEntry)
  recipes : List (String × Recipe)
  settingsDoc : Option (SKey → Option JValue)

/-- A cloud namespace with no documents, as Firestore presents any path
never written to. -/
def emptyCloudUser : CloudUser :=
  { meals := [], favourites := [], weights := [], recipes := [], settingsDoc := none }

/-- fs.addMeal: generate an id, store the record with that id injected at
the document path String(id), return the id. -/
def fsAddMeal (u : CloudUser) (g : Nat) (meal : Meal) : CloudUser × Nat × Int :=
  let (id, g2) := genId g
  ({ u with meals := setDocL u.meals (toString id) { meal with id := some id } }, g2, id)

/-- fs.updateMeal: setDoc of the full record at String(meal.id). -/
def fsUpdateMeal (u : CloudUser) (meal : Meal) : CloudUser :=
  { u with meals := setDocL u.meals (docPath meal.id) meal }

/-- fs.deleteMeal (needed only to complete the adapter surface). -/
def fsDeleteMeal (u : CloudUser) (id : Int) : CloudUser :=
  { u with meals := u.meals.filter (fun e => e.1 != toString id) }

/-- fs.addFavourite. -/
def fsAddFavourite (u : CloudUser) (g : Nat) (fav : Favourite) : CloudUser × Nat × Int :=
  let (id, g2) := genId g
  ({ u with favourites := setDocL u.favourites (toString id) { fav with id := some id } }, g2, id)

/-- fs.updateFavourite. -/
def fsUpdateFavourite (u : CloudUser) (fav : Favourite) : CloudUser :=
  { u with favourites := setDocL u.favourites (docPath fav.id) fav }

/-- fs.addWeight. -/
def fsAddWeight (u : CloudUser) (g : Nat) (entry : WeightEntry) : CloudUser × Nat × Int :=
  let (id, g2) := genId g
  ({ u with weights := setDocL u.weights (toString id) { entry with id := some id } }, g2, id)

/-- fs.addRecipe: same generated id and path scheme but the id is not
returned (the source function returns void). -/
def fsAddRecipe (u : CloudUser) (g : Nat) (recipe : Recipe) : CloudUser × Nat :=
  let (id, g2) := genId g
  ({ u with recipes := setDocL u.recipes (toString id) { recipe with id := some id } }, g2)

/-- fs.updateRecipe. -/
def fsUpdateRecipe (u : CloudUser) (recipe : Recipe) : CloudUser :=
  { u with recipes := setDocL u.recipes (docPath recipe.id) recipe }

/-- fs.saveSetting: setDoc with merge true on the settings/data document,
creating it when absent and overriding exactly the written key otherwise. -/
def fsSaveSetting (u : CloudUser) (k : SKey) (v : JValue) : CloudUser :=
  let old := u.settingsDoc.getD (fun _ => none)
  { u with settingsDoc := some (fun q => if q = k then some v else old q) }

/-- fs.getSettings, read at one key: DEFAULT_SETTINGS spread under the
document data when the document exists, plain defaults otherwise. -/
def fsGetSetting (u : CloudUser) (k : SKey) : JValue :=
  match u.settingsDoc with
  | none => defaultSetting k
  | some m => (m k).getD (defaultSetting k)

/-- The users collection: uid to per-user namespace. -/
def CloudStore : Type := List (String × CloudUser)

/-- Reading a namespace never written to yields empty collections. -/
def lookupUser (c : CloudStore) (uid : String) : CloudUser :=
  (lookupL c uid).getD emptyCloudUser

/-- Writing back a per-user namespace. -/
def setUser (c : CloudStore) (uid : String) (u : CloudUser) : CloudStore :=
  setDocL c uid u

/-! ## Backend routing layer (src/lib/db.ts)

Every exported wrapper is the ternary uid present, cloud adapter scoped to
uid, otherwise local adapter.  The payload of a call does not influence the
dispatch, so each wrapper is embedded as the list of backends the call
touches; resetAllData is the one export that issues calls against more than
one backend. -/

/-- A storage backend: the local IndexedDB store, or the Firestore
namespace of one identity. -/
inductive Backend
  | idb
  | fs (uid : String)
deriving DecidableEq

namespace Router

/-- Dispatch shared by every entity wrapper in db.ts. -/
def dispatch (u : Option String) : List Backend :=
  match u with
  | some uid => [.fs uid]
  | none => [.idb]

/-- db.ts addMeal. -/
def addMeal (u : Option String) : List Backend := dispatch u

/-- db.ts getMealsByDate. -/
def getMealsByDate (u : Option String) : List Backend := dispatch u

/-- db.ts getAllMeals. -/
def getAllMeals (u : Option String) : List Backend := dispatch u

/-- db.ts updateMeal. -/
def updateMeal (u : Option String) : List Backend := dispatch u

/-- db.ts deleteMeal. -/
def deleteMeal (u : Option String) : List Backend := dispatch u

/-- db.ts addFavourite. -/
def addFavourite (u : Option String) : List Backend := dispatch u

/-- db.ts getAllFavourites. -/
def getAllFavourites (u : Option String) : List Backend := dispatch u

/-- db.ts updateFavourite. -/
def updateFavourite (u : Option String) : List Backend := dispatch u

/-- db.ts deleteFavourite. -/
def deleteFavourite (u : Option String) : List Backend := dispatch u

/-- db.ts addWeight. -/
def addWeight (u : Option String) : List Backend := dispatch u

/-- db.ts getAllWeights. -/
def getAllWeights (u : Option String) : List Backend := dispatch u

/-- db.ts deleteWeight. -/
def deleteWeight (u : Option String) : List Backend := dispatch u

/-- db.ts addRecipe. -/
def addRecipe (u : Option String) : List Backend := dispatch u

/-- db.ts getAllRecipes. -/
def getAllRecipes (u : Option String) : List Backend := dispatch u

/-- db.ts updateRecipe. -/
def updateRecipe (u : Option String) : List Backend := dispatch u

/-- db.ts deleteRecipe. -/
def deleteRecipe (u : Option String) : List Backend := dispatch u

/-- db.ts getSettings. -/
def getSettings (u : Option String) : List Backend := dispatch u

/-- db.ts saveSetting. -/
def saveSetting (u : Option String) : List Backend := dispatch u

/-- db.ts resetAllData: when signed in it awaits fs.resetAllData and
idb.resetAllData together, so the one call touches both backends. -/
def resetAllData (u : Option String) : List Backend :=
  match u with
  | some uid => [.fs uid, .idb]
  | none => [.idb]

/-- The entity operations enumerated by the routing contract. -/
def entityOps : List (Option String → List Backend) :=
  [addMeal, getMealsByDate, getAllMeals, updateMeal, deleteMeal,
   addFavourite, getAllFavourites, updateFavourite, deleteFavourite,
   addWeight, getAllWeights, deleteWeight,
   addRecipe, getAllRecipes, updateRecipe, deleteRecipe,
   getSettings, saveSetting]

end Router

/-! ## Migration routine (src/lib/merge.ts)

mergeLocalDataToFirestore: guard on any existing cloud meal, then copy every
local collection and every settings key into the cloud namespace with fresh
keys.  The local store is only read.  Promise.all concurrency is modelled
sequentially, which is state-equivalent here because every upload targets a
distinct document (fresh keys, distinct settings keys). -/

/-- The local database as read by the migration (idb.getAllMeals and
friends, plus the settings store). -/
structure LocalStore where
  meals : List Meal
  favourites : List Favourite
  weights : List WeightEntry
  recipes : List Recipe
  settings : IdbSettings

/-- Upload of every local meal: strip the local id, fs.addMeal each. -/
def copyMeals (u : CloudUser) (g : Nat) : List Meal → CloudUser × Nat
  | [] => (u, g)
  | m :: rest =>
      let r := fsAddMeal u g { m with id := none }
      copyMeals r.1 r.2.1 rest

/-- Upload of every local favourite. -/
def copyFavourites (u : CloudUser) (g : Nat) : List Favourite → CloudUser × Nat
  | [] => (u, g)
  | f :: rest =>
      let r := fsAddFavourite u g { f with id := none }
      copyFavourites r.1 r.2.1 rest

/-- Upload of every local weight entry. -/
def copyWeights (u : CloudUser) (g : Nat) : List WeightEntry → CloudUser × Nat
  | [] => (u, g)
  | w :: rest =>
      let r := fsAddWeight u g { w with id := none }
      copyWeights r.1 r.2.1 rest

/-- Upload of every local recipe. -/
def copyRecipes (u : CloudUser) (g : Nat) : List Recipe → CloudUser × Nat
  | [] => (u, g)
  | rc :: rest =>
      let r := fsAddRecipe u g { rc with id := none }
      copyRecipes r.1 r.2 rest

/-- Upload of the local settings, one fs.saveSetting per key of the record
returned by idb.getSettings (all twelve keys are present because the record
is built over spread defaults). -/
def copySettings (u : CloudUser) (s : IdbSettings) : CloudUser :=
  allSKeys.foldl (fun acc k => fsSaveSetting acc k (idbGetSetting s k)) u

/-- The body of the try block: upload every local collection and every
settings key into the given cloud namespace. -/
def migrateAll (u : CloudUser) (g : Nat) (ldb : LocalStore) : CloudUser × Nat :=
  let r1 := copyMeals u g ldb.meals
  let r2 := copyFavourites r1.1 r1.2 ldb.favourites
  let r3 := copyWeights r2.1 r2.2 ldb.weights
  let r4 := copyRecipes r3.1 r3.2 ldb.recipes
  (copySettings r4.1 ldb.settings, r4.2)

/-- mergeLocalDataToFirestore: return immediately when the uid already has
at least one cloud meal, otherwise copy all local data into the cloud
namespace. -/
def mergeLocalDataToFirestore (uid : String) (ldb : LocalStore)
    (cloud : CloudStore) (g : Nat) : CloudStore × Nat :=
  if (lookupUser cloud uid).meals.isEmpty then
    let r := migrateAll (lookupUser cloud uid) g ldb
    (setUser cloud uid r.1, r.2)
  else (cloud, g)

/-! ## AI intent parser (src/lib/ai-parser.ts)

The external completion call is modelled by an oracle describing its
outcome: a non-success HTTP status (which makes callGemini throw), a body
whose sanitized text JSON.parse rejects, a parse result that is not an
object (so that property access finds no type tag), or a parsed JSON
object given as its field list.  Storage reads feeding the prompt are
passed in as pure values; they do not influence the returned intent. -/

/-- Outcome of the awaited fetch plus sanitize plus JSON.parse pipeline. -/
inductive FetchOutcome
  | httpError
  | parseError
  | parsedNonObject
  | parsedObject (fields : List (String × JValue))

/-- The discriminated result type of processInput. -/
inductive AIResponse
  | meal (data : ParsedEntry)
  | chat (message : JValue)
  | favouriteSave (name : JValue)
  | favouriteLog (name : JValue)
  | weightLog (w : Rat)
  | error (message : String)
deriving DecidableEq

/-- The typed configuration-error message returned when no key is set. -/
def noApiKeyMsg : String :=
  "No API key set. Please add your Gemini API key in Settings."

/-- The generic message produced by the catch block. -/
def genericErrorMsg : String :=
  "Something went wrong. Please try again."

/-- The JavaScript a or-else b idiom: keep a when truthy, else b. -/
def jsOr (v fallback : JValue) : JValue :=
  if jsTruthy v then v else fallback

/-- The meal branch of processInput: food is parsed.food falling back to
the raw input, and each of the five numeric macro fields goes through
parseInt coercion with default zero. -/
def mealFromFields (input : String) (fields : List (String × JValue)) : ParsedEntry :=
  { food := jsOr (jsonGet fields "food") (.jstr input)
    calories := jsParseIntOr0 (jsonGet fields "calories")
    protein := jsParseIntOr0 (jsonGet fields "protein")
    fat := jsParseIntOr0 (jsonGet fields "fat")
    carbs := jsParseIntOr0 (jsonGet fields "carbs")
    fiber := jsParseIntOr0 (jsonGet fields "fiber") }

/-- processInput: the configuration-error guard, then dispatch on the type
discriminator of the parsed completion.  The Bool of the result records
whether the network endpoint was called. -/
def processInput (settings : UserSettings) (input : String)
    (_todayMeals : List Meal) (fetch : FetchOutcome) : AIResponse × Bool :=
  if settings.apiKey = "" then (.error noApiKeyMsg, false)
  else
    match fetch with
    | .httpError => (.error genericErrorMsg, true)
    | .parseError => (.error genericErrorMsg, true)
    | .parsedNonObject => (.error genericErrorMsg, true)
    | .parsedObject fields =>
        if jsonGet fields "type" = .jstr "meal" then
          (.meal (mealFromFields input fields), true)
        else if jsonGet fields "type" = .jstr "favourite_save" then
          (.favouriteSave (jsonGet fields "name"), true)
        else if jsonGet fields "type" = .jstr "favourite_log" then
          (.favouriteLog (jsonGet fields "name"), true)
        else if jsonGet fields "type" = .jstr "weight" then
          (.weightLog (jsParseFloatOr0 (jsonGet fields "weight")), true)
        else if jsonGet fields "type" = .jstr "chat" then
          (.chat (jsonGet fields "message"), true)
        else (.error genericErrorMsg, true)

/-- getMealSuggestion: null without a key, null when nothing is logged
today, otherwise the free text of the completion call (null again when that
call throws, which the oracle reports as none). -/
def getMealSuggestion (settings : UserSettings) (todayMeals : List Meal)
    (svc : Option String) : Option String :=
  if settings.apiKey = "" then none
  else if todayMeals.isEmpty then none
  else svc

/-- getSmartObservations: null without a key, null when fewer than three
meal records fall on the last seven dates, otherwise the free text of the
completion call. -/
def getSmartObservations (settings : UserSettings) (allMeals : List Meal)
    (last7Dates : List String) (svc : Option String) : Option String :=
  if settings.apiKey = "" then none
  else
    let recentMeals := allMeals.filter (fun m => last7Dates.contains m.date)
    if recentMeals.length < 3 then none
    else svc

/-- Formalisation of the claim phrase number of days with data: how many of
the last seven dates carry at least one meal record. -/
def daysWithData (allMeals : List Meal) (last7Dates : List String) : Nat :=
  (last7Dates.filter (fun d => allMeals.any (fun m => m.date = d))).length

/-! ## Recipe-to-meal logging (src/pages/MealInput.tsx)

The recipe-log branch of handleSend and the handleRecipeLog event handler
compute the same mealData object: each recipe total scaled by the ratio of
the requested weight to the recipe total weight, passed through Math.round. -/

/-- Math.round: round to the nearest integer, ties toward positive
infinity. -/
def jsRound (q : Rat) : Int :=
  Int.floor (q + 1 / 2)

/-- Decimal label of the gram weight used in the food string; exact for
whole-number weights, which is the only case the UI produces. -/
def ratLabel (q : Rat) : String :=
  if q.den = 1 then toString q.num else toString q

/-- The mealData object logged for weight grams of a recipe. -/
def recipeLogMealData (recipe : Recipe) (weight : Rat) : ParsedEntry :=
  let ratio := weight / recipe.totalWeight
  { food := .jstr (ratLabel weight ++ "g " ++ recipe.name)
    calories := jsRound (recipe.totalCalories * ratio)
    protein := jsRound (recipe.totalProtein * ratio)
    fat := jsRound (recipe.totalFat * ratio)
    carbs := jsRound (recipe.totalCarbs * ratio)
    fiber := jsRound (recipe.totalFiber * ratio) }

/-! ## Supporting lemmas -/

/-- setDoc never leaves a collection empty. -/
theorem setDocL_ne_nil {α : Type} (col : List (String × α)) (p : String) (v : α) :
    setDocL col p v ≠ [] := by
  cases col with
  | nil => simp [setDocL]
  | cons e rest =>
      simp only [setDocL]
      split <;> simp

/-- Reading back the document just written. -/
theorem lookupL_setDocL_self {α : Type} (col : List (String × α)) (p : String) (v : α) :
    lookupL (setDocL col p v) p = some v := by
  induction col with
  | nil => simp [setDocL, lookupL]
  | cons e rest ih =>
      by_cases h : e.1 = p
      · simp [setDocL, h, lookupL]
      · simp [setDocL, h, lookupL, ih]

/-- setDoc at a fresh path appends the document. -/
theorem setDocL_of_lookup_none {α : Type} (col : List (String × α)) (p : String) (v : α)
    (h : lookupL col p = none) : setDocL col p v = col ++ [(p, v)] := by
  induction col with
  | nil => simp [setDocL]
  | cons e rest ih =>
      by_cases he : e.1 = p
      · simp [lookupL, he] at h
      · simp only [lookupL, if_neg he] at h
        simp [setDocL, he, ih h]

/-- Reading back the namespace just written for a uid. -/
theorem lookupUser_setUser_self (c : CloudStore) (uid : String) (u : CloudUser) :
    lookupUser (setUser c uid u) uid = u := by
  simp [lookupUser, setUser, lookupL_setDocL_self]

/-- Uploading favourites does not touch the meals collection. -/
theorem copyFavourites_meals (l : List Favourite) :
    ∀ u g, (copyFavourites u g l).1.meals = u.meals := by
  induction l with
  | nil => intro u g; rfl
  | cons f rest ih =>
      intro u g
      simp only [copyFavourites]
      rw [ih]
      rfl

/-- Uploading weights does not touch the meals collection. -/
theorem copyWeights_meals (l : List WeightEntry) :
    ∀ u g, (copyWeights u g l).1.meals = u.meals := by
  induction l with
  | nil => intro u g; rfl
  | cons w rest ih =>
      intro u g
      simp only [copyWeights]
      rw [ih]
      rfl

/-- Uploading recipes does not touch the meals collection. -/
theorem copyRecipes_meals (l : List Recipe) :
    ∀ u g, (copyRecipes u g l).1.meals = u.meals := by
  induction l with
  | nil => intro u g; rfl
  | cons rc rest ih =>
      intro u g
      simp only [copyRecipes]
      rw [ih]
      rfl

/-- Writing settings keys does not touch the meals collection. -/
theorem foldl_fsSaveSetting_meals (s : IdbSettings) (ks : List SKey) :
    ∀ u, ((ks.foldl (fun acc k => fsSaveSetting acc k (idbGetSetting s k)) u)).meals = u.meals := by
  induction ks with
  | nil => intro u; rfl
  | cons k rest ih =>
      intro u
      simp only [List.foldl]
      rw [ih]
      rfl

/-- copySettings does not touch the meals collection. -/
theorem copySettings_meals (u : CloudUser) (s : IdbSettings) :
    (copySettings u s).meals = u.meals :=
  foldl_fsSaveSetting_meals s allSKeys u

/-- Uploading meals preserves nonemptiness of the meals collection. -/
theorem copyMeals_meals_ne_nil_of_ne (l : List Meal) :
    ∀ u g, u.meals ≠ [] → (copyMeals u g l).1.meals ≠ [] := by
  induction l with
  | nil => intro u g h; exact h
  | cons m rest ih =>
      intro u g _
      simp only [copyMeals]
      exact ih _ _ (setDocL_ne_nil _ _ _)

/-- Uploading a nonempty local meal list leaves the cloud meals collection
nonempty. -/
theorem copyMeals_nonempty (l : List Meal) (u : CloudUser) (g : Nat) (h : l ≠ []) :
    (copyMeals u g l).1.meals ≠ [] := by
  cases l with
  | nil => exact absurd rfl h
  | cons m rest =>
      simp only [copyMeals]
      exact copyMeals_meals_ne_nil_of_ne rest _ _ (setDocL_ne_nil _ _ _)

/-- After migrating a local store holding at least one meal, the cloud
meals collection is nonempty. -/
theorem migrateAll_meals_ne_nil (u : CloudUser) (g : Nat) (ldb : LocalStore)
    (h : ldb.meals ≠ []) : (migrateAll u g ldb).1.meals ≠ [] := by
  simp only [migrateAll]
  rw [copySettings_meals, copyRecipes_meals, copyWeights_meals, copyFavourites_meals]
  exact copyMeals_nonempty _ _ _ h

/-- Number of favourite documents carrying a given name. -/
def countFavName (col : List (String × Favourite)) (n : String) : Nat :=
  (col.filter (fun e => e.2.name = n)).length

/-- Number of recipe documents carrying a given name. -/
def countRecipeName (col : List (String × Recipe)) (n : String) : Nat :=
  (col.filter (fun e => e.2.name = n)).length

/-- The invariant relating a stored cloud record to its document path: the
path is the String image of the id field. -/
def idPathOk {α : Type} (getId : α → Option Int) (col : List (String × α)) : Prop :=
  ∀ e ∈ col, e.1 = docPath (getId e.2)

/-- setDoc of a record whose path agrees with its id preserves the
id-to-path invariant. -/
theorem setDocL_idPathOk {α : Type} (getId : α → Option Int) (p : String) (v : α)
    (hv : p = docPath (getId v)) :
    ∀ col, idPathOk getId col → idPathOk getId (setDocL col p v) := by
  intro col
  induction col with
  | nil =>
      intro _ e he
      simp only [setDocL, List.mem_singleton] at he
      subst he
      exact hv
  | cons a rest ih =>
      intro hcol e he
      by_cases ha : a.1 = p
      · simp only [setDocL, if_pos ha] at he
        rcases List.mem_cons.mp he with h1 | h2
        · subst h1; exact hv
        · exact hcol e (List.mem_cons_of_mem a h2)
      · simp only [setDocL, if_neg ha] at he
        rcases List.mem_cons.mp he with h1 | h2
        · rw [h1]; exact hcol a (List.mem_cons_self a rest)
        · exact ih (fun x hx => hcol x (List.mem_cons_of_mem a hx)) e h2

/-! ## Concrete instances used by witnesses and counterexamples -/

/-- A settings record with an API key configured. -/
def wSettings : UserSettings := { DEFAULT_SETTINGS with apiKey := "k" }

/-- A favourite used in concrete store instances. -/
def cexFav : Favourite :=
  { id := none, name := "dal fry", content := "dal fry", parsed := [],
    totalCalories := 320, createdAt := 0 }

/-- A recipe of 300 g totalling 600 kcal and 40 g protein. -/
def cexRec : Recipe :=
  { id := none, name := "khichdi", ingredients := [], totalWeight := 300,
    totalCalories := 600, totalProtein := 40, totalFat := 10, totalCarbs := 80,
    totalFiber := 12, createdAt := 0 }

/-- A concrete meal record. -/
def wMeal : Meal :=
  { id := none, date := "2026-01-01", timestamp := 1, content := "dal",
    parsed := [], totalCalories := 200 }

/-- A concrete weight entry. -/
def wWt : WeightEntry :=
  { id := none, date := "2026-01-01", weight := 70, timestamp := 1 }

/-- A cloud namespace already holding one favourite named dal fry. -/
def wCloudFav : CloudUser :=
  { emptyCloudUser with favourites := [("7", { cexFav with id := some 7 })] }

/-- A cloud namespace already holding one recipe named khichdi. -/
def wCloudRec : CloudUser :=
  { emptyCloudUser with recipes := [("7", { cexRec with id := some 7 })] }

/-- A local store holding one favourite and no meals. -/
def cexLdbFavOnly : LocalStore :=
  { meals := [], favourites := [cexFav], weights := [], recipes := [],
    settings := fun _ => none }

/-- A local store holding one meal. -/
def wLdbMeal : LocalStore :=
  { meals := [wMeal], favourites := [], weights := [], recipes := [],
    settings := fun _ => none }

/-- Seven consecutive dates, standing for the last seven days. -/
def wDates7 : List String := ["d1", "d2", "d3", "d4", "d5", "d6", "d7"]

/-- A meal logged on the given date. -/
def wMealOn (d : String) : Meal :=
  { id := none, date := d, timestamp := 0, content := "meal", parsed := [],
    totalCalories := 100 }

/-- The parsed completion of the coercion test: a meal whose calories field
is the string 350 and whose protein field is JSON null. -/
def wMealFields : List (String × JValue) :=
  [("type", .jstr "meal"), ("calories", .jstr "350"), ("protein", .jnull)]

/-- A parsed meal completion whose food field is JSON null. -/
def wFoodNullFields : List (String × JValue) :=
  [("type", .jstr "meal"), ("food", .jnull), ("calories", .jnum 120)]

/-! ## Claims -/

/-- C1 (amended): every entity operation exposed by the routing layer
(add, get, update, delete for meals, favourites, weights and recipes, and
get and save for settings) is dispatched to the cloud adapter scoped to the
current identity when one is set and to the local adapter when none is set,
touching exactly that one backend; the additionally exposed reset operation
however touches both backends in one call when an identity is set. -/
theorem router_dispatch_single_backend (uid : String) :
    (Router.addMeal (some uid) = [Backend.fs uid] ∧ Router.addMeal none = [Backend.idb])
  ∧ (Router.getMealsByDate (some uid) = [Backend.fs uid] ∧ Router.getMealsByDate none = [Backend.idb])
  ∧ (Router.getAllMeals (some uid) = [Backend.fs uid] ∧ Router.getAllMeals none = [Backend.idb])
  ∧ (Router.updateMeal (some uid) = [Backend.fs uid] ∧ Router.updateMeal none = [Backend.idb])
  ∧ (Router.deleteMeal (some uid) = [Backend.fs uid] ∧ Router.deleteMeal none = [Backend.idb])
  ∧ (Router.addFavourite (some uid) = [Backend.fs uid] ∧ Router.addFavourite none = [Backend.idb])
  ∧ (Router.getAllFavourites (some uid) = [Backend.fs uid] ∧ Router.getAllFavourites none = [Backend.idb])
  ∧ (Router.updateFavourite (some uid) = [Backend.fs uid] ∧ Router.updateFavourite none = [Backend.idb])
  ∧ (Router.deleteFavourite (some uid) = [Backend.fs uid] ∧ Router.deleteFavourite none = [Backend.idb])
  ∧ (Router.addWeight (some uid) = [Backend.fs uid] ∧ Router.addWeight none = [Backend.idb])
  ∧ (Router.getAllWeights (some uid) = [Backend.fs uid] ∧ Router.getAllWeights none = [Backend.idb])
  ∧ (Router.deleteWeight (some uid) = [Backend.fs uid] ∧ Router.deleteWeight none = [Backend.idb])
  ∧ (Router.addRecipe (some uid) = [Backend.fs uid] ∧ Router.addRecipe none = [Backend.idb])
  ∧ (Router.getAllRecipes (some uid) = [Backend.fs uid] ∧ Router.getAllRecipes none = [Backend.idb])
  ∧ (Router.updateRecipe (some uid) = [Backend.fs uid] ∧ Router.updateRecipe none = [Backend.idb])
  ∧ (Router.deleteRecipe (some uid) = [Backend.fs uid] ∧ Router.deleteRecipe none = [Backend.idb])
  ∧ (Router.getSettings (some uid) = [Backend.fs uid] ∧ Router.getSettings none = [Backend.idb])
  ∧ (Router.saveSetting (some uid) = [Backend.fs uid] ∧ Router.saveSetting none = [Backend.idb])
  ∧ (Router.resetAllData (some uid) = [Backend.fs uid, Backend.idb]
      ∧ Router.resetAllData none = [Backend.idb]) :=
  ⟨⟨rfl, rfl⟩, ⟨rfl, rfl⟩, ⟨rfl, rfl⟩, ⟨rfl, rfl⟩, ⟨rfl, rfl⟩, ⟨rfl, rfl⟩,
   ⟨rfl, rfl⟩, ⟨rfl, rfl⟩, ⟨rfl, rfl⟩, ⟨rfl, rfl⟩, ⟨rfl, rfl⟩, ⟨rfl, rfl⟩,
   ⟨rfl, rfl⟩, ⟨rfl, rfl⟩, ⟨rfl, rfl⟩, ⟨rfl, rfl⟩, ⟨rfl, rfl⟩, ⟨rfl, rfl⟩,
   ⟨rfl, rfl⟩⟩

/-- C1 counterexample: resetAllData is a routed operation of the layer and,
with an identity set, the one call touches the cloud backend and the local
backend together. -/
theorem router_resetAllData_both_backends :
    Backend.fs "u" ∈ Router.resetAllData (some "u")
  ∧ Backend.idb ∈ Router.resetAllData (some "u")
  ∧ Router.resetAllData (some "u") ≠ [Backend.fs "u"] := by decide

/-- C2 (amended): provided the local store holds at least one meal, running
the migration twice against the same identity copies only once: after the
first run a cloud meal record exists for that identity, so the second run
hits the idempotence guard and is a no-op. -/
theorem merge_second_run_noop (uid : String) (ldb : LocalStore) (cloud : CloudStore)
    (g : Nat) (h : ldb.meals ≠ []) :
    mergeLocalDataToFirestore uid ldb
        (mergeLocalDataToFirestore uid ldb cloud g).1
        (mergeLocalDataToFirestore uid ldb cloud g).2
      = mergeLocalDataToFirestore uid ldb cloud g := by
  by_cases hc : (lookupUser cloud uid).meals.isEmpty = true
  · have hfirst : mergeLocalDataToFirestore uid ldb cloud g
        = (setUser cloud uid (migrateAll (lookupUser cloud uid) g ldb).1,
           (migrateAll (lookupUser cloud uid) g ldb).2) := by
      simp [mergeLocalDataToFirestore, hc]
    have hne := migrateAll_meals_ne_nil (lookupUser cloud uid) g ldb h
    rw [hfirst]
    simp [mergeLocalDataToFirestore, lookupUser_setUser_self, List.isEmpty_iff, hne]
  · simp [mergeLocalDataToFirestore, hc]

/-- C2 witness: a local store with one meal, an empty cloud store. -/
theorem merge_second_run_noop_witness :
    wLdbMeal.meals ≠ []
  ∧ mergeLocalDataToFirestore "u" wLdbMeal
        (mergeLocalDataToFirestore "u" wLdbMeal [] 0).1
        (mergeLocalDataToFirestore "u" wLdbMeal [] 0).2
      = mergeLocalDataToFirestore "u" wLdbMeal [] 0 :=
  ⟨by decide, merge_second_run_noop "u" wLdbMeal [] 0 (by decide)⟩

/-- C2 counterexample: with a local store holding a favourite but no meal,
the guard never triggers; the second run copies the favourite again, so the
cloud namespace ends with two favourites and the second run is not a no-op. -/
theorem merge_recopies_without_local_meals :
    (lookupUser (mergeLocalDataToFirestore "u" cexLdbFavOnly
        (mergeLocalDataToFirestore "u" cexLdbFavOnly [] 0).1
        (mergeLocalDataToFirestore "u" cexLdbFavOnly [] 0).2).1 "u").favourites.length = 2
  ∧ (lookupUser (mergeLocalDataToFirestore "u" cexLdbFavOnly [] 0).1 "u").favourites.length = 1
  ∧ mergeLocalDataToFirestore "u" cexLdbFavOnly
        (mergeLocalDataToFirestore "u" cexLdbFavOnly [] 0).1
        (mergeLocalDataToFirestore "u" cexLdbFavOnly [] 0).2
      ≠ mergeLocalDataToFirestore "u" cexLdbFavOnly [] 0 :=
  ⟨rfl, rfl, fun heq =>
    absurd (congrArg (fun p => (lookupUser p.1 "u").favourites.length) heq) (by decide)⟩

/-- C3: a second insert under an existing favourite or recipe name fails on
the local adapter with a constraint error from the unique by-name index,
while the cloud adapter accepts the insert, leaving two records with the
same name. -/
theorem unique_name_asymmetry :
    (∀ (rows : List Favourite) (nid : Int) (fav : Favourite),
        rows.any (fun r => r.name = fav.name) = true →
        idbAddFavourite rows nid fav = .error .constraintError)
  ∧ (∀ (rows : List Recipe) (nid : Int) (rc : Recipe),
        rows.any (fun r => r.name = rc.name) = true →
        idbAddRecipe rows nid rc = .error .constraintError)
  ∧ (∀ (u : CloudUser) (g : Nat) (fav : Favourite),
        lookupL u.favourites (toString ((g : Nat) : Int)) = none →
        u.favourites.any (fun e => e.2.name = fav.name) = true →
        2 ≤ countFavName (fsAddFavourite u g fav).1.favourites fav.name)
  ∧ (∀ (u : CloudUser) (g : Nat) (rc : Recipe),
        lookupL u.recipes (toString ((g : Nat) : Int)) = none →
        u.recipes.any (fun e => e.2.name = rc.name) = true →
        2 ≤ countRecipeName (fsAddRecipe u g rc).1.recipes rc.name) := by
  refine ⟨?_, ?_, ?_, ?_⟩
  · intro rows nid fav hdup
    simp [idbAddFavourite, hdup]
  · intro rows nid rc hdup
    simp [idbAddRecipe, hdup]
  · intro u g fav hfresh hdup
    have hset : (fsAddFavourite u g fav).1.favourites
        = u.favourites ++ [(toString ((g : Nat) : Int), { fav with id := some ((g : Nat) : Int) })] :=
      setDocL_of_lookup_none _ _ _ hfresh
    obtain ⟨e, he, hname⟩ := List.any_eq_true.mp hdup
    have hmem : e ∈ u.favourites.filter (fun e => e.2.name = fav.name) :=
      List.mem_filter.mpr ⟨he, hname⟩
    have hpos : 0 < (u.favourites.filter (fun e => e.2.name = fav.name)).length :=
      List.length_pos_of_mem hmem
    rw [countFavName, hset, List.filter_append]
    simp only [List.length_append]
    have hone : (List.filter (fun e => e.2.name = fav.name)
        [(toString ((g : Nat) : Int), { fav with id := some ((g : Nat) : Int) })]).length = 1 := by
      simp
    omega
  · intro u g rc hfresh hdup
    have hset : (fsAddRecipe u g rc).1.recipes
        = u.recipes ++ [(toString ((g : Nat) : Int), { rc with id := some ((g : Nat) : Int) })] :=
      setDocL_of_lookup_none _ _ _ hfresh
    obtain ⟨e, he, hname⟩ := List.any_eq_true.mp hdup
    have hmem : e ∈ u.recipes.filter (fun e => e.2.name = rc.name) :=
      List.mem_filter.mpr ⟨he, hname⟩
    have hpos : 0 < (u.recipes.filter (fun e => e.2.name = rc.name)).length :=
      List.length_pos_of_mem hmem
    rw [countRecipeName, hset, List.filter_append]
    simp only [List.length_append]
    have hone : (List.filter (fun e => e.2.name = rc.name)
        [(toString ((g : Nat) : Int), { rc with id := some ((g : Nat) : Int) })]).length = 1 := by
      simp
    omega

/-- C3 witness: the duplicate insert fails locally and succeeds in the
cloud, where the name dal fry (resp. khichdi) then appears twice. -/
theorem unique_name_asymmetry_witness :
    [cexFav].any (fun r => r.name = cexFav.name) = true
  ∧ idbAddFavourite [cexFav] 5 cexFav = .error .constraintError
  ∧ [cexRec].any (fun r => r.name = cexRec.name) = true
  ∧ idbAddRecipe [cexRec] 5 cexRec = .error .constraintError
  ∧ lookupL wCloudFav.favourites (toString ((0 : Nat) : Int)) = none
  ∧ wCloudFav.favourites.any (fun e => e.2.name = cexFav.name) = true
  ∧ 2 ≤ countFavName (fsAddFavourite wCloudFav 0 cexFav).1.favourites cexFav.name
  ∧ lookupL wCloudRec.recipes (toString ((0 : Nat) : Int)) = none
  ∧ wCloudRec.recipes.any (fun e => e.2.name = cexRec.name) = true
  ∧ 2 ≤ countRecipeName (fsAddRecipe wCloudRec 0 cexRec).1.recipes cexRec.name :=
  ⟨by decide, unique_name_asymmetry.1 [cexFav] 5 cexFav (by decide),
   by decide, unique_name_asymmetry.2.1 [cexRec] 5 cexRec (by decide),
   by decide, by decide,
   unique_name_asymmetry.2.2.1 wCloudFav 0 cexFav (by decide) (by decide),
   by decide, by decide,
   unique_name_asymmetry.2.2.2 wCloudRec 0 cexRec (by decide) (by decide)⟩

/-- C4: a completion parsed as a meal intent has each of its five numeric
macro fields coerced through parseInt with default zero on failure; the
result is a meal, not an error. -/
theorem meal_macros_coerced (settings : UserSettings) (input : String)
    (tm : List Meal) (fields : List (String × JValue))
    (hkey : settings.apiKey ≠ "") (htype : jsonGet fields "type" = .jstr "meal") :
    (processInput settings input tm (.parsedObject fields)).1
      = .meal (mealFromFields input fields)
  ∧ ∀ v : JValue, parseIntJS (jsToString v) = none → jsParseIntOr0 v = 0 := by
  constructor
  · simp [processInput, hkey, htype]
  · intro v hv
    simp [jsParseIntOr0, hv]

/-- C4 witness: the response with calories the string 350 and protein null
yields a meal with calories 350 and protein 0. -/
theorem meal_macros_coerced_witness :
    wSettings.apiKey ≠ ""
  ∧ jsonGet wMealFields "type" = .jstr "meal"
  ∧ (processInput wSettings "ate dal" [] (.parsedObject wMealFields)).1
      = .meal { food := .jstr "ate dal", calories := 350, protein := 0,
                fat := 0, carbs := 0, fiber := 0 } :=
  ⟨by decide, by decide,
    (meal_macros_coerced wSettings "ate dal" [] wMealFields (by decide) (by decide)).1.trans
      (by decide)⟩

/-- C5: with no API key configured, processInput returns the typed
configuration-error result at once, whatever the input text and whatever
the network would have answered, and makes no network call. -/
theorem no_key_immediate_error (settings : UserSettings) (input : String)
    (tm : List Meal) (fetch : FetchOutcome) (h : settings.apiKey = "") :
    processInput settings input tm fetch = (.error noApiKeyMsg, false) := by
  simp [processInput, h]

/-- C5 witness: default settings carry no key; any text returns the
configuration error with the network untouched. -/
theorem no_key_immediate_error_witness :
    DEFAULT_SETTINGS.apiKey = ""
  ∧ processInput DEFAULT_SETTINGS "had dal" [] .httpError = (.error noApiKeyMsg, false) :=
  ⟨rfl, no_key_immediate_error DEFAULT_SETTINGS "had dal" [] .httpError rfl⟩

/-- C6: on both the local and the cloud settings path, reading immediately
after saving a single key yields the new value at that key and, at every
other key, the prior value (the saved one if ever set, the default
otherwise). -/
theorem settings_merge_update_frame :
    (∀ (m : IdbSettings) (k : SKey) (v : JValue) (q : SKey),
        idbGetSetting (idbSaveSetting m k v) q = if q = k then v else idbGetSetting m q)
  ∧ (∀ (u : CloudUser) (k : SKey) (v : JValue) (q : SKey),
        fsGetSetting (fsSaveSetting u k v) q = if q = k then v else fsGetSetting u q) := by
  constructor
  · intro m k v q
    by_cases h : q = k <;> simp [idbGetSetting, idbSaveSetting, h]
  · intro u k v q
    cases hd : u.settingsDoc <;> by_cases h : q = k <;>
      simp [fsGetSetting, fsSaveSetting, h, hd]

/-- C7: the meal logged for w grams of a recipe carries every macro total
scaled by the ratio of w to the recipe total weight and rounded to the
nearest integer. -/
theorem recipe_scaling_linear (r : Recipe) (w : Rat) (_h : r.totalWeight ≠ 0) :
    (recipeLogMealData r w).calories = jsRound (r.totalCalories * w / r.totalWeight)
  ∧ (recipeLogMealData r w).protein = jsRound (r.totalProtein * w / r.totalWeight)
  ∧ (recipeLogMealData r w).fat = jsRound (r.totalFat * w / r.totalWeight)
  ∧ (recipeLogMealData r w).carbs = jsRound (r.totalCarbs * w / r.totalWeight)
  ∧ (recipeLogMealData r w).fiber = jsRound (r.totalFiber * w / r.totalWeight) := by
  refine ⟨?_, ?_, ?_, ?_, ?_⟩ <;>
    simp [recipeLogMealData, mul_div_assoc]

/-- C7 witness: 150 grams of the 300 gram recipe with 600 kcal and 40 g
protein logs 300 kcal and 20 g protein. -/
theorem recipe_scaling_linear_witness :
    cexRec.totalWeight ≠ 0
  ∧ (recipeLogMealData cexRec 150).calories = 300
  ∧ (recipeLogMealData cexRec 150).protein = 20 := by
  refine ⟨by norm_num [cexRec], ?_, ?_⟩
  · have h := (recipe_scaling_linear cexRec 150 (by norm_num [cexRec])).1
    rw [h]
    norm_num [cexRec, jsRound]
  · have h := (recipe_scaling_linear cexRec 150 (by norm_num [cexRec])).2.1
    rw [h]
    norm_num [cexRec, jsRound]

/-- C8 (amended): the two auxiliary entry points return null exactly when
no API key is configured, when history is insufficient measured in meal
records (no meal logged today for the suggestion; fewer than three meal
records dated within the last seven days for the observation), or when the
completion call fails; otherwise they return its free-text string. -/
theorem aux_advice_null_iff :
    (∀ (s : UserSettings) (tm : List Meal) (svc : Option String),
        getMealSuggestion s tm svc = none ↔ s.apiKey = "" ∨ tm = [] ∨ svc = none)
  ∧ (∀ (s : UserSettings) (am : List Meal) (l7 : List String) (svc : Option String),
        getSmartObservations s am l7 svc = none ↔
          s.apiKey = "" ∨ (am.filter (fun m => l7.contains m.date)).length < 3 ∨ svc = none) := by
  constructor
  · intro s tm svc
    by_cases h1 : s.apiKey = "" <;> by_cases h2 : tm.isEmpty = true <;> cases svc <;>
      simp_all [getMealSuggestion, List.isEmpty_iff]
  · intro s am l7 svc
    by_cases h1 : s.apiKey = "" <;>
      by_cases h2 : (am.filter (fun m => l7.contains m.date)).length < 3 <;> cases svc <;>
        simp_all [getSmartObservations]

/-- C8 counterexample: no threshold on days with data matches the code.
Three meals on one day (one day with data) produce an observation, while
two meals on two days (two days with data) produce none, so the null
condition rises and falls with the meal-record count, not with the number
of days carrying data. -/
theorem aux_days_with_data_cex :
    wSettings.apiKey ≠ ""
  ∧ getSmartObservations wSettings [wMealOn "d1", wMealOn "d1", wMealOn "d1"] wDates7
      (some "note") = some "note"
  ∧ daysWithData [wMealOn "d1", wMealOn "d1", wMealOn "d1"] wDates7 = 1
  ∧ getSmartObservations wSettings [wMealOn "d1", wMealOn "d2"] wDates7
      (some "note") = none
  ∧ daysWithData [wMealOn "d1", wMealOn "d2"] wDates7 = 2 := by decide

/-- C9: each cloud add stores the generated numeric key both as the stored
record id field and as the document path, returning that key for meals,
favourites and weights; the update operations preserve the identity between
the id field and the document path across the collection. -/
theorem cloud_id_doc_path_identity (u : CloudUser) (g : Nat)
    (m : Meal) (f : Favourite) (w : WeightEntry) (rc : Recipe)
    (m2 : Meal) (f2 : Favourite) (rc2 : Recipe)
    (hm : idPathOk Meal.id u.meals) (hf : idPathOk Favourite.id u.favourites)
    (hw : idPathOk WeightEntry.id u.weights) (hr : idPathOk Recipe.id u.recipes) :
    ((fsAddMeal u g m).2.2 = (genId g).1
      ∧ lookupL (fsAddMeal u g m).1.meals (toString (genId g).1)
          = some { m with id := some (genId g).1 }
      ∧ idPathOk Meal.id (fsAddMeal u g m).1.meals)
  ∧ ((fsAddFavourite u g f).2.2 = (genId g).1
      ∧ lookupL (fsAddFavourite u g f).1.favourites (toString (genId g).1)
          = some { f with id := some (genId g).1 }
      ∧ idPathOk Favourite.id (fsAddFavourite u g f).1.favourites)
  ∧ ((fsAddWeight u g w).2.2 = (genId g).1
      ∧ lookupL (fsAddWeight u g w).1.weights (toString (genId g).1)
          = some { w with id := some (genId g).1 }
      ∧ idPathOk WeightEntry.id (fsAddWeight u g w).1.weights)
  ∧ (lookupL (fsAddRecipe u g rc).1.recipes (toString (genId g).1)
        = some { rc with id := some (genId g).1 }
      ∧ idPathOk Recipe.id (fsAddRecipe u g rc).1.recipes)
  ∧ idPathOk Meal.id (fsUpdateMeal u m2).meals
  ∧ idPathOk Favourite.id (fsUpdateFavourite u f2).favourites
  ∧ idPathOk Recipe.id (fsUpdateRecipe u rc2).recipes :=
  ⟨⟨rfl, lookupL_setDocL_self _ _ _,
     setDocL_idPathOk Meal.id (toString ((g : Nat) : Int))
       { m with id := some ((g : Nat) : Int) } rfl u.meals hm⟩,
   ⟨rfl, lookupL_setDocL_self _ _ _,
     setDocL_idPathOk Favourite.id (toString ((g : Nat) : Int))
       { f with id := some ((g : Nat) : Int) } rfl u.favourites hf⟩,
   ⟨rfl, lookupL_setDocL_self _ _ _,
     setDocL_idPathOk WeightEntry.id (toString ((g : Nat) : Int))
       { w with id := some ((g : Nat) : Int) } rfl u.weights hw⟩,
   ⟨lookupL_setDocL_self _ _ _,
     setDocL_idPathOk Recipe.id (toString ((g : Nat) : Int))
       { rc with id := some ((g : Nat) : Int) } rfl u.recipes hr⟩,
   setDocL_idPathOk _ _ _ rfl _ hm,
   setDocL_idPathOk _ _ _ rfl _ hf,
   setDocL_idPathOk _ _ _ rfl _ hr⟩

/-- C9 witness: adding a meal to an empty cloud namespace with key supply 0
returns key 0 and stores the record with id 0 at document path 0. -/
theorem cloud_id_doc_path_identity_witness :
    idPathOk Meal.id emptyCloudUser.meals
  ∧ ((fsAddMeal emptyCloudUser 0 wMeal).2.2 = (genId 0).1
      ∧ lookupL (fsAddMeal emptyCloudUser 0 wMeal).1.meals (toString (genId 0).1)
          = some { wMeal with id := some (genId 0).1 }
      ∧ idPathOk Meal.id (fsAddMeal emptyCloudUser 0 wMeal).1.meals) := by
  have he : ∀ {α : Type} (getId : α → Option Int),
      idPathOk getId ([] : List (String × α)) :=
    fun _ e hmem => absurd hmem (List.not_mem_nil e)
  exact ⟨he _,
    (cloud_id_doc_path_identity emptyCloudUser 0 wMeal cexFav wWt cexRec wMeal cexFav cexRec
      (he _) (he _) (he _) (he _)).1⟩

/-- C10: when the completion is a meal intent whose food field is absent,
null or the empty string, the food of the returned meal is the raw input
text verbatim. -/
theorem meal_food_fallback_input (settings : UserSettings) (input : String)
    (tm : List Meal) (fields : List (String × JValue))
    (hkey : settings.apiKey ≠ "") (htype : jsonGet fields "type" = .jstr "meal")
    (hfood : jsonGet fields "food" = .absent ∨ jsonGet fields "food" = .jnull
      ∨ jsonGet fields "food" = .jstr "") :
    (processInput settings input tm (.parsedObject fields)).1
      = .meal (mealFromFields input fields)
  ∧ (mealFromFields input fields).food = .jstr input := by
  constructor
  · simp [processInput, hkey, htype]
  · rcases hfood with h | h | h <;> simp [mealFromFields, jsOr, jsTruthy, h]

/-- C10 witness: a meal response with a null food field logged from the
input text 2 rotis keeps that text as the food. -/
theorem meal_food_fallback_input_witness :
    wSettings.apiKey ≠ ""
  ∧ jsonGet wFoodNullFields "type" = .jstr "meal"
  ∧ jsonGet wFoodNullFields "food" = .jnull
  ∧ (processInput wSettings "2 rotis" [] (.parsedObject wFoodNullFields)).1
      = .meal (mealFromFields "2 rotis" wFoodNullFields)
  ∧ (mealFromFields "2 rotis" wFoodNullFields).food = .jstr "2 rotis" :=
  ⟨by decide, by decide, by decide,
    (meal_food_fallback_input wSettings "2 rotis" [] wFoodNullFields (by decide) (by decide)
      (Or.inr (Or.inl (by decide)))).1,
    (meal_food_fallback_input wSettings "2 rotis" [] wFoodNullFields (by decide) (by decide)
      (Or.inr (Or.inl (by decide)))).2⟩

end MealTracker
